import Mathlib

/-!
Verification of the warehouse-management device-connectivity core.

The definitions below are a shallow embedding of the Python source:
- `app/services/rfid_service.py` (Scan Processor),
- `app/services/rfid_listener.py` (push listener, poll listener, supervisor),
- `app/services/opcua_service.py` (PLC client functions).
External effects (database commits, network dials, sleeps) are made
explicit: stores are passed as values, dial/sleep counts are returned in
outcome records, and Python truthiness of optional integers is modelled
on `Option Nat`.
-/

namespace WMS

/-! ## Scan Processor (`app/services/rfid_service.py`, `process_rfid_scan`) -/

/-- A product row, as far as the scan processor reads it
(`product.id`, `product.name`, `product.category_id`). -/
structure Product where
  id : Nat
  name : String
  category_id : Nat
  deriving Repr, DecidableEq

/-- An `RFIDTracking` row staged by `db.session.add`. -/
structure RFIDTracking where
  rfid_tag : String
  product_id : Nat
  status : String
  deriving Repr, DecidableEq

/-- One entry of `results['items']`. -/
structure ScanItem where
  product_id : Nat
  name : String
  category_id : Nat
  deriving Repr, DecidableEq

/-- The `results` dictionary built by `process_rfid_scan`. -/
structure ScanResults where
  processed : Nat
  unknown_tags : List String
  items : List ScanItem
  deriving Repr, DecidableEq

/-- The `for tag in rfid_tags` loop of `process_rfid_scan`:
`lookup` is `Product.query.filter_by(rfid_tag=tag).first()`;
`pending` is the set of rows staged in the session by `db.session.add`. -/
def scanLoop (lookup : String → Option Product) :
    List String → ScanResults → List RFIDTracking →
    ScanResults × List RFIDTracking
  | [], results, pending => (results, pending)
  | tag :: rest, results, pending =>
    match lookup tag with
    | none =>
        scanLoop lookup rest
          { results with unknown_tags := results.unknown_tags ++ [tag] }
          pending
    | some product =>
        scanLoop lookup rest
          { processed := results.processed + 1
            unknown_tags := results.unknown_tags
            items := results.items ++
              [⟨product.id, product.name, product.category_id⟩] }
          (pending ++ [⟨tag, product.id, "scanned"⟩])

/-- `process_rfid_scan(reader_id, rfid_tags)`.  The database is modelled
by the list `db0` of already-committed tracking rows plus the flag
`accept`: the single `db.session.commit()` at the end of the function
either persists every staged row (`accept = true`) or, if the store
rejects the batch, rolls every staged row back (`accept = false`).
Returns the results dictionary and the rows visible after the call. -/
def process_rfid_scan (lookup : String → Option Product)
    (_reader_id : String) (rfid_tags : List String)
    (db0 : List RFIDTracking) (accept : Bool) :
    ScanResults × List RFIDTracking :=
  let r := scanLoop lookup rfid_tags ⟨0, [], []⟩ []
  (r.1, if accept then db0 ++ r.2 else db0)

/-- The items the loop produces for a tag list (one per matched tag). -/
def itemsOf (lookup : String → Option Product) : List String → List ScanItem
  | [] => []
  | tag :: rest =>
    match lookup tag with
    | none => itemsOf lookup rest
    | some p => ⟨p.id, p.name, p.category_id⟩ :: itemsOf lookup rest

/-- The unmatched tags, in input order. -/
def unknownOf (lookup : String → Option Product) : List String → List String
  | [] => []
  | tag :: rest =>
    match lookup tag with
    | none => tag :: unknownOf lookup rest
    | some _ => unknownOf lookup rest

/-- The tracking rows staged for a tag list (one per matched tag). -/
def trackingOf (lookup : String → Option Product) :
    List String → List RFIDTracking
  | [] => []
  | tag :: rest =>
    match lookup tag with
    | none => trackingOf lookup rest
    | some p => ⟨tag, p.id, "scanned"⟩ :: trackingOf lookup rest

/-! ## Poll Listener (`app/services/rfid_listener.py`, `RFIDPollingListener`) -/

/-- One element of the `scans` array of a poll response:
`scan.get("scan_id")` (absent modelled as `none`) and
`scan.get("rfid_tags", [])`. -/
structure Scan where
  scan_id : Option Nat
  rfid_tags : List String
  deriving Repr, DecidableEq

/-- Python truthiness of an optional integer: `None` and `0` are falsy. -/
def truthyOpt : Option Nat → Bool
  | none => false
  | some n => !(n == 0)

/-- Numeric value of the cursor for comparisons (`None` reads as 0;
the code never compares against `None` thanks to the truthiness guard). -/
def cval : Option Nat → Nat
  | none => 0
  | some n => n

/-- The cursor update of `_poll_reader`:
`if scan_id and (not self.last_scan_id or scan_id > self.last_scan_id):
self.last_scan_id = scan_id`. -/
def stepCursor (cursor sid : Option Nat) : Option Nat :=
  if truthyOpt sid && (!truthyOpt cursor || decide (cval cursor < cval sid))
  then sid else cursor

/-- The `for scan in scans` loop of `_poll_reader`: updates the cursor
per scan and dispatches `scan["rfid_tags"]` to a processing thread
whenever the tag list is non-empty (the dispatch is NOT guarded by the
cursor comparison).  Returns the final cursor and the dispatched
batches, in order. -/
def pollScans (cursor : Option Nat) :
    List Scan → Option Nat × List (List String)
  | [] => (cursor, [])
  | scan :: rest =>
    let c := stepCursor cursor scan.scan_id
    let r := pollScans c rest
    (r.1, (if scan.rfid_tags.isEmpty then [] else [scan.rfid_tags]) ++ r.2)

/-- Mutable state of `RFIDPollingListener` relevant to polling. -/
structure PollState where
  last_scan_id : Option Nat
  error_count : Nat
  deriving Repr, DecidableEq

/-- What one call of `_poll_reader` observes from the endpoint. -/
inductive PollResponse
  | success (scans : List Scan)
  | httpError (code : Nat)
  | requestFailure
  deriving Repr, DecidableEq

/-- `_poll_reader`: on HTTP 200 run the scans loop; on a non-200 status
or a `requests.RequestException` increment the error counter and leave
the cursor untouched.  Returns the new state and the dispatched
batches. -/
def _poll_reader (st : PollState) (resp : PollResponse) :
    PollState × List (List String) :=
  match resp with
  | .success scans =>
    let r := pollScans st.last_scan_id scans
    ({ st with last_scan_id := r.1 }, r.2)
  | .httpError _ => ({ st with error_count := st.error_count + 1 }, [])
  | .requestFailure => ({ st with error_count := st.error_count + 1 }, [])

/-- The polling loop of `run`, iterated over a sequence of responses
(dispatches discarded; only the state evolution is kept). -/
def pollRun (st : PollState) : List PollResponse → PollState
  | [] => st
  | resp :: rest => pollRun (_poll_reader st resp).1 rest

/-! ## Push Listener (`app/services/rfid_listener.py`, `RFIDReaderListener`) -/

/-- Mutable state of `RFIDReaderListener` relevant to the reconnect
policy (timestamps and the raw socket handle are not modelled). -/
structure PushState where
  running : Bool
  connected : Bool
  reconnect_delay : ℚ
  max_reconnect_delay : ℚ
  reconnect_attempts : Nat
  error_count : Nat
  deriving Repr, DecidableEq

/-- `__init__`: delay 1.0, ceiling 60.0, counters 0, flags false. -/
def pushInit : PushState :=
  { running := false, connected := false, reconnect_delay := 1
    max_reconnect_delay := 60, reconnect_attempts := 0, error_count := 0 }

/-- State right after `run()` sets `self.running = True`. -/
def startedState : PushState := { pushInit with running := true }

/-- `stop()`: sets the running flag false (and closes the socket). -/
def stop (s : PushState) : PushState := { s with running := false }

/-- `on_open`: reset the reconnect delay to its floor, the attempt
counter to 0, and mark connected. -/
def on_open (s : PushState) : PushState :=
  { s with reconnect_delay := 1, reconnect_attempts := 0, connected := true }

/-- Result of one `on_close` invocation: the state afterwards, the time
slept before reconnecting (if any), and whether `connect()` was invoked
again. -/
structure CloseOutcome where
  state : PushState
  waited : Option ℚ
  reconnected : Bool
  deriving Repr, DecidableEq

/-- `on_close`: mark disconnected; if `self.running` was true at the
check, increment the attempt counter, sleep the current delay, multiply
the delay by 1.5 capped at the ceiling, and reconnect.  The parameter
`stopDuringWait` models a concurrent `stop()` landing while the
`time.sleep` is in flight: it sets the running flag false, but the code
never reads the flag again after the sleep, so `connect()` is still
invoked. -/
def on_close (s : PushState) (stopDuringWait : Bool) : CloseOutcome :=
  let s1 := { s with connected := false }
  if s1.running then
    let s2 := { s1 with reconnect_attempts := s1.reconnect_attempts + 1 }
    let s3 := if stopDuringWait then stop s2 else s2
    let s4 := { s3 with
      reconnect_delay := min (s3.reconnect_delay * (3 / 2))
        s3.max_reconnect_delay }
    ⟨s4, some s.reconnect_delay, true⟩
  else
    ⟨s1, none, false⟩

/-- The push listener after `n` uninterrupted reconnect cycles
(each cycle is one `on_close` with no concurrent `stop()`). -/
def cycles : Nat → PushState
  | 0 => startedState
  | n + 1 => (on_close (cycles n) false).state

/-! ## Supervisor (`app/services/rfid_listener.py`, `monitor_listeners`) -/

/-- The alert flavours emitted by `monitor_listeners` via `send_alert`. -/
inductive AlertKind
  | connectionLost
  | excessiveErrors
  | inactive
  deriving Repr, DecidableEq

/-- The fields of `listener.get_status()` that the supervisor reads,
plus the liveness of the underlying thread (`listener.is_alive()`). -/
structure MonStatus where
  alive : Bool
  error_count : Nat
  inactivity_seconds : Nat
  deriving Repr, DecidableEq

/-- Effects of one supervision pass over one listener: whether it was
popped from `active_listeners`, whether `listener.stop()` was called,
whether `start_rfid_reader_listener()` was invoked to respawn it, and
which alert (if any) was sent. -/
structure MonOutcome where
  removed : Bool
  stopCalled : Bool
  restartCall : Bool
  alert : Option AlertKind
  deriving Repr, DecidableEq

/-- The per-listener body of the `monitor_listeners` loop.  `configured`
is `reader_id in current_app.config.get('RFID_READERS', {})`: a dead
listener is always popped, but it is restarted and alerted only when
its reader id appears in the `RFID_READERS` mapping.  A live listener
with more than 50 errors is stopped, popped, restarted and alerted;
otherwise more than 1800 seconds of inactivity draws an alert without a
restart. -/
def monitor_check (configured : Bool) (st : MonStatus) : MonOutcome :=
  if !st.alive then
    { removed := true, stopCalled := false, restartCall := configured
      alert := if configured then some .connectionLost else none }
  else if 50 < st.error_count then
    { removed := true, stopCalled := true, restartCall := true
      alert := some .excessiveErrors }
  else if 1800 < st.inactivity_seconds then
    { removed := false, stopCalled := false, restartCall := false
      alert := some .inactive }
  else
    { removed := false, stopCalled := false, restartCall := false
      alert := none }

/-! ## PLC client (`app/services/opcua_service.py`) -/

/-- Outcome of `connect_opcua_client`: whether a client was returned,
how many dial attempts (`Client(...)` + `client.connect()`) were made,
and how many inter-attempt delays (`time.sleep(delay)`, `delay = 2`
time-units each) were taken. -/
structure ConnectOutcome where
  client : Bool
  dials : Nat
  sleeps : Nat
  deriving Repr, DecidableEq

/-- The `for attempt in range(retries)` loop of `connect_opcua_client`.
`succ k` tells whether the k-th dial attempt reaches the endpoint;
`fuel` is the number of loop iterations left (`retries - attempt`).
A failed attempt sleeps only when `attempt < retries - 1`. -/
def connectAux (succ : Nat → Bool) (retries : Nat) :
    Nat → Nat → ConnectOutcome
  | _, 0 => ⟨false, 0, 0⟩
  | attempt, fuel + 1 =>
    if succ attempt then ⟨true, 1, 0⟩
    else
      let rest := connectAux succ retries (attempt + 1) fuel
      ⟨rest.client, rest.dials + 1,
        rest.sleeps + (if attempt < retries - 1 then 1 else 0)⟩

/-- `connect_opcua_client(retries=3, delay=2)`: dial up to 3 times,
sleeping the fixed delay between consecutive attempts, and return
`None` (modelled `client = false`) when every attempt fails.  No
connection handle is stored anywhere: every call starts from scratch
with a fresh `Client`. -/
def connect_opcua_client (succ : Nat → Bool) : ConnectOutcome :=
  connectAux succ 3 0 3

/-- The two failure shapes of `read_opcua_value`/`write_opcua_value`:
the `{"error": "Cannot connect to OPC UA server"}` dictionary, and the
`{"error": str(e)}` dictionary produced when the operation after the
connect raises. -/
inductive OpError
  | cannotConnect
  | operationFailed
  deriving Repr, DecidableEq

/-- Outcome of `read_opcua_value`: the returned value or error
dictionary, the dial/sleep counts of the embedded connect, and whether
a connection handle survives the call (the `finally` block always
disconnects, so it never does). -/
structure ReadOutcome where
  result : Except OpError Int
  dials : Nat
  sleeps : Nat
  clientAfter : Bool

/-- `read_opcua_value(node_id)`: connect first (dialling regardless of
what `node_id` looks like — there is no address validation), then
`client.get_node(node_id).get_value()`.  `getNodeFails` models the
opcua library raising on the given identifier; `nodes` is the server's
value map. -/
def read_opcua_value (succ : Nat → Bool) (getNodeFails : String → Bool)
    (nodes : String → Int) (node_id : String) : ReadOutcome :=
  let c := connect_opcua_client succ
  if c.client then
    if getNodeFails node_id then
      ⟨.error .operationFailed, c.dials, c.sleeps, false⟩
    else
      ⟨.ok (nodes node_id), c.dials, c.sleeps, false⟩
  else
    ⟨.error .cannotConnect, c.dials, c.sleeps, false⟩

/-- Outcome of `write_opcua_value`: success or error dictionary, dial
and sleep counts, the server's node values after the call, and whether
a connection handle survives the call. -/
structure WriteOutcome where
  result : Except OpError Unit
  dials : Nat
  sleeps : Nat
  nodes : String → Int
  clientAfter : Bool

/-- `write_opcua_value(node_id, value)`: connect first (again with no
address validation), then `client.get_node(node_id).set_value(value)`;
on success return the `{"message": ...}` dictionary. -/
def write_opcua_value (succ : Nat → Bool) (getNodeFails : String → Bool)
    (nodes : String → Int) (node_id : String) (value : Int) : WriteOutcome :=
  let c := connect_opcua_client succ
  if c.client then
    if getNodeFails node_id then
      ⟨.error .operationFailed, c.dials, c.sleeps, nodes, false⟩
    else
      ⟨.ok (), c.dials, c.sleeps,
        (fun n => if n = node_id then value else nodes n), false⟩
  else
    ⟨.error .cannotConnect, c.dials, c.sleeps, nodes, false⟩

/-- Checks `s=<non-empty>` at the tail of an address. -/
def sPart : List Char → Bool
  | 's' :: '=' :: rest => !rest.isEmpty
  | _ => false

/-- Scans the namespace segment up to the `;`, then checks the tail. -/
def nsRest : List Char → Bool
  | [] => false
  | ';' :: rest => sPart rest
  | _ :: rest => nsRest rest

/-- Follows the spec's words (the source has no validator; its test
suite imports `validate_node_id`, which does not exist in the module):
an address is valid iff it matches `ns=<non-empty>;s=<non-empty>`. -/
def specValidNodeId (s : String) : Bool :=
  match s.data with
  | 'n' :: 's' :: '=' :: c :: rest =>
    if c = ';' then false else nsRest (c :: rest)
  | _ => false

/-! ## Lemmas about the Scan Processor loop -/

theorem scanLoop_eq (lookup : String → Option Product) :
    ∀ (tags : List String) (results : ScanResults)
      (pending : List RFIDTracking),
      scanLoop lookup tags results pending =
        (⟨results.processed + (itemsOf lookup tags).length,
          results.unknown_tags ++ unknownOf lookup tags,
          results.items ++ itemsOf lookup tags⟩,
         pending ++ trackingOf lookup tags)
  | [], results, pending => by
      simp [scanLoop, itemsOf, unknownOf, trackingOf]
  | tag :: rest, results, pending => by
      cases h : lookup tag with
      | none =>
          simp [scanLoop, h, itemsOf, unknownOf, trackingOf,
            scanLoop_eq lookup rest]
      | some p =>
          simp [scanLoop, h, itemsOf, unknownOf, trackingOf,
            scanLoop_eq lookup rest, Nat.add_assoc, Nat.add_comm]

theorem itemsOf_length_add_unknownOf_length
    (lookup : String → Option Product) :
    ∀ tags : List String,
      (itemsOf lookup tags).length + (unknownOf lookup tags).length =
        tags.length
  | [] => rfl
  | tag :: rest => by
      cases h : lookup tag <;>
        simp [itemsOf, unknownOf, h,
          itemsOf_length_add_unknownOf_length lookup rest,
          Nat.add_comm, Nat.add_assoc, Nat.add_left_comm]

theorem unknownOf_eq_filter (lookup : String → Option Product) :
    ∀ tags : List String,
      unknownOf lookup tags = tags.filter fun t => (lookup t).isNone
  | [] => rfl
  | tag :: rest => by
      cases h : lookup tag <;>
        simp [unknownOf, h, List.filter, unknownOf_eq_filter lookup rest]

/-! ## Lemmas about the poll cursor -/

theorem cval_le_stepCursor (c sid : Option Nat) :
    cval c ≤ cval (stepCursor c sid) := by
  unfold stepCursor
  split
  · next h =>
      rcases Bool.and_eq_true _ _ |>.mp h with ⟨_, h2⟩
      rcases Bool.or_eq_true _ _ |>.mp h2 with h3 | h3
      · have : truthyOpt c = false := by simpa using h3
        cases c with
        | none => exact Nat.zero_le _
        | some n =>
            have : n = 0 := by
              by_contra hn
              simp [truthyOpt, hn] at this
            simp [cval, this]
      · exact Nat.le_of_lt (of_decide_eq_true h3)
  · exact Nat.le_refl _

theorem stepCursor_cases (c sid : Option Nat) :
    stepCursor c sid = c ∨
      ∃ n, sid = some n ∧ n ≠ 0 ∧ cval c < n ∧ stepCursor c sid = some n := by
  unfold stepCursor
  split
  · next h =>
      rcases Bool.and_eq_true _ _ |>.mp h with ⟨h1, h2⟩
      cases sid with
      | none => simp [truthyOpt] at h1
      | some n =>
          have hn : n ≠ 0 := by
            intro hn
            simp [truthyOpt, hn] at h1
          refine Or.inr ⟨n, rfl, hn, ?_, rfl⟩
          rcases Bool.or_eq_true _ _ |>.mp h2 with h3 | h3
          · have hc : truthyOpt c = false := by simpa using h3
            cases c with
            | none => exact Nat.pos_of_ne_zero hn
            | some m =>
                have : m = 0 := by
                  by_contra hm
                  simp [truthyOpt, hm] at hc
                simp [cval, this]
                exact Nat.pos_of_ne_zero hn
          · exact of_decide_eq_true h3
  · exact Or.inl rfl

theorem pollScans_cval_le (scans : List Scan) :
    ∀ c : Option Nat, cval c ≤ cval (pollScans c scans).1 := by
  induction scans with
  | nil => intro c; exact Nat.le_refl _
  | cons s rest ih =>
      intro c
      exact Nat.le_trans (cval_le_stepCursor c s.scan_id)
        (ih (stepCursor c s.scan_id))

theorem pollScans_dispatch (scans : List Scan) :
    ∀ c : Option Nat,
      (pollScans c scans).2 =
        (scans.filter fun s => !s.rfid_tags.isEmpty).map Scan.rfid_tags := by
  induction scans with
  | nil => intro c; rfl
  | cons s rest ih =>
      intro c
      cases h : s.rfid_tags.isEmpty <;>
        simp [pollScans, h, List.filter, ih]

theorem pollRun_cval_le (resps : List PollResponse) :
    ∀ st : PollState,
      cval st.last_scan_id ≤ cval (pollRun st resps).last_scan_id := by
  induction resps with
  | nil => intro st; exact Nat.le_refl _
  | cons r rest ih =>
      intro st
      refine Nat.le_trans ?_ (ih (_poll_reader st r).1)
      cases r with
      | success scans => exact pollScans_cval_le scans st.last_scan_id
      | httpError code => exact Nat.le_refl _
      | requestFailure => exact Nat.le_refl _

/-! ## Lemmas about the push listener cycles -/

theorem cycles_running (n : Nat) : (cycles n).running = true := by
  induction n with
  | zero => rfl
  | succ n ih => simp [cycles, on_close, ih]

theorem cycles_max (n : Nat) : (cycles n).max_reconnect_delay = 60 := by
  induction n with
  | zero => rfl
  | succ n ih => simp [cycles, on_close, cycles_running n, ih]

theorem cycles_attempts (n : Nat) : (cycles n).reconnect_attempts = n := by
  induction n with
  | zero => rfl
  | succ n ih => simp [cycles, on_close, cycles_running n, ih]

/-! ## Claim theorems -/

/-- Claim C1 (refuted by the code; the test suite agrees with the claim):
`read_opcua_value` and `write_opcua_value` perform no address validation —
they connect and dial before ever looking at the node address.  At the
address "invalid_node", which the spec's pattern `ns=<non-empty>;s=<non-empty>`
rejects, a dial is performed (1 dial with a reachable endpoint) and the
error returned is the post-connect operation error, not a validation
rejection issued before any network call. -/
theorem C1_invalid_address_still_dials :
    specValidNodeId ("invalid_node") = false ∧
    (read_opcua_value (fun _ => true) (fun nid => !specValidNodeId nid)
        (fun _ => 0) ("invalid_node")).dials = 1 ∧
    (read_opcua_value (fun _ => true) (fun nid => !specValidNodeId nid)
        (fun _ => 0) ("invalid_node")).result = .error .operationFailed ∧
    (write_opcua_value (fun _ => true) (fun nid => !specValidNodeId nid)
        (fun _ => 0) ("invalid_node") 10).dials = 1 ∧
    (write_opcua_value (fun _ => true) (fun nid => !specValidNodeId nid)
        (fun _ => 0) ("invalid_node") 10).result = .error .operationFailed :=
  ⟨by decide, by decide, rfl, by decide, rfl⟩

/-- Claim C2 (refuted by the code; the test suite assumes a singleton):
`connect_opcua_client` stores no connection state whatsoever, so two
consecutive calls while the endpoint is reachable dial twice in total —
not at most once with handle reuse. -/
theorem C2_connect_always_redials :
    (connect_opcua_client (fun _ => true)).client = true ∧
    (connect_opcua_client (fun _ => true)).dials = 1 ∧
    (connect_opcua_client (fun _ => true)).dials +
        (connect_opcua_client (fun _ => true)).dials = 2 ∧
    ¬((connect_opcua_client (fun _ => true)).dials +
        (connect_opcua_client (fun _ => true)).dials ≤ 1) := by
  decide

/-- Claim C3: the tracking records of a scan batch are persisted by the
single commit issued after every tag has been processed — the visible
store afterwards is either the old store plus the whole batch, or
(when the store rejects the batch) exactly the old store. -/
theorem C3_batch_commit_all_or_nothing
    (lookup : String → Option Product) (reader_id : String)
    (rfid_tags : List String) (db0 : List RFIDTracking) (accept : Bool) :
    (process_rfid_scan lookup reader_id rfid_tags db0 accept).2 =
      if accept then db0 ++ trackingOf lookup rfid_tags else db0 := by
  simp [process_rfid_scan, scanLoop_eq]

/-- Claim C4 counterexample: with the cursor at 10, a polled scan whose
identifier 5 is at or below the cursor does not advance the cursor, but
its tag list is still dispatched to the Scan Processor — "their tags are
not reprocessed" fails on the code. -/
theorem C4_stale_scan_still_dispatched :
    (5 : Nat) ≤ 10 ∧
    (_poll_reader ⟨some 10, 0⟩
        (.success [⟨some 5, [("T1")]⟩])).1.last_scan_id = some 10 ∧
    (_poll_reader ⟨some 10, 0⟩
        (.success [⟨some 5, [("T1")]⟩])).2 = [[("T1")]] := by
  refine ⟨by decide, by decide, by decide⟩

/-- Claim C4 (amended): across any sequence of poll responses the cursor
value is monotonically non-decreasing, and a single scan either leaves
the cursor unchanged or advances it to a non-zero identifier strictly
greater than the current cursor value; however every non-empty tag list
in a response is dispatched regardless of its scan identifier —
deduplication relies solely on the `since_id` request parameter. -/
theorem C4_cursor_monotone_amended :
    (∀ (st : PollState) (resps : List PollResponse),
        cval st.last_scan_id ≤ cval (pollRun st resps).last_scan_id) ∧
    (∀ c sid : Option Nat,
        stepCursor c sid = c ∨
          ∃ n, sid = some n ∧ n ≠ 0 ∧ cval c < n ∧
            stepCursor c sid = some n) ∧
    (∀ (c : Option Nat) (scans : List Scan),
        (pollScans c scans).2 =
          (scans.filter fun s => !s.rfid_tags.isEmpty).map Scan.rfid_tags) :=
  ⟨fun st resps => pollRun_cval_le resps st,
   stepCursor_cases,
   fun c scans => pollScans_dispatch scans c⟩

/-- Claim C5 counterexample: a `stop()` landing while the reconnect wait
is in flight sets the running flag false, yet `on_close` still invokes
`connect()` after waking — the flag is never re-observed after the wait. -/
theorem C5_stop_during_wait_still_reconnects :
    startedState.running = true ∧
    (on_close startedState true).state.running = false ∧
    (on_close startedState true).reconnected = true :=
  ⟨rfl, rfl, rfl⟩

/-- Claim C5 (amended): the running flag is consulted only before the
reconnect wait.  A `stop()` that lands before `on_close` checks the flag
prevents the reconnect; a `stop()` during the wait does not — the
reconnect proceeds even though the flag is false after waking. -/
theorem C5_reconnect_checks_flag_before_wait
    (s : PushState) (stopDuringWait : Bool) :
    (s.running = false → (on_close s stopDuringWait).reconnected = false) ∧
    (s.running = true →
      (on_close s true).reconnected = true ∧
      (on_close s true).state.running = false) := by
  constructor
  · intro h
    simp [on_close, h]
  · intro h
    simp [on_close, stop, h]

/-- Witness for the amended Claim C5 at concrete states. -/
theorem C5_reconnect_checks_flag_before_wait_witness :
    (on_close pushInit true).reconnected = false ∧
    (on_close startedState true).reconnected = true :=
  ⟨(C5_reconnect_checks_flag_before_wait pushInit true).1 rfl,
   ((C5_reconnect_checks_flag_before_wait startedState true).2 rfl).1⟩

/-- Claim C6: the reconnect delay starts at 1.0; cycle `n` waits the
current delay and then updates it to `min(delay * 1.5, 60)`; the attempt
counter increments exactly once per cycle (so it equals `n` after `n`
cycles); a successful open resets delay and counter to 1.0 and 0. -/
theorem C6_backoff_sequence (n : Nat) :
    (cycles 0).reconnect_delay = 1 ∧
    (cycles 0).reconnect_attempts = 0 ∧
    (on_close (cycles n) false).waited = some (cycles n).reconnect_delay ∧
    (cycles (n + 1)).reconnect_delay =
      min ((cycles n).reconnect_delay * (3 / 2)) 60 ∧
    (cycles (n + 1)).reconnect_attempts =
      (cycles n).reconnect_attempts + 1 ∧
    (cycles n).reconnect_attempts = n ∧
    (on_open (cycles n)).reconnect_delay = 1 ∧
    (on_open (cycles n)).reconnect_attempts = 0 := by
  refine ⟨rfl, rfl, ?_, ?_, ?_, cycles_attempts n, rfl, rfl⟩
  · simp [on_close, cycles_running n]
  · simp [cycles, on_close, cycles_running n, cycles_max n]
  · simp [cycles, on_close, cycles_running n]

/-- Claim C7: a live listener with error counter 51 (exceeding the
threshold 50) is stopped, removed, restarted and draws the "excessive
errors" alert; a live listener with error counter 49 and inactivity 1801
(exceeding 1800) draws the inactivity alert and is not restarted. -/
theorem C7_thresholds (configured : Bool) (st1 st2 : MonStatus)
    (h1a : st1.alive = true) (h1e : st1.error_count = 51)
    (h2a : st2.alive = true) (h2e : st2.error_count = 49)
    (h2i : st2.inactivity_seconds = 1801) :
    monitor_check configured st1 =
      ⟨true, true, true, some .excessiveErrors⟩ ∧
    monitor_check configured st2 =
      ⟨false, false, false, some .inactive⟩ := by
  constructor
  · simp [monitor_check, h1a, h1e]
  · simp [monitor_check, h2a, h2e, h2i]

/-- Witness for Claim C7 at concrete statuses. -/
theorem C7_thresholds_witness :
    monitor_check true ⟨true, 51, 0⟩ =
      ⟨true, true, true, some .excessiveErrors⟩ ∧
    monitor_check true ⟨true, 49, 1801⟩ =
      ⟨false, false, false, some .inactive⟩ :=
  C7_thresholds true ⟨true, 51, 0⟩ ⟨true, 49, 1801⟩ rfl rfl rfl rfl rfl

/-- Claim C8 counterexample: a dead listener whose reader id is absent
from the `RFID_READERS` mapping (e.g. the fallback-configured "default"
reader) is removed from the active set, but neither restarted nor
alerted. -/
theorem C8_unconfigured_dead_listener_not_restarted :
    monitor_check false ⟨false, 0, 0⟩ = ⟨true, false, false, none⟩ := by
  decide

/-- Claim C8 (amended): a listener whose task has died is always removed
from the active set, but it is restarted and a "connection lost" alert
emitted only when its reader id appears in the `RFID_READERS`
configuration mapping. -/
theorem C8_dead_listener_restart_amended (configured : Bool)
    (st : MonStatus) (h : st.alive = false) :
    (monitor_check configured st).removed = true ∧
    (monitor_check configured st).restartCall = configured ∧
    (monitor_check configured st).alert =
      (if configured then some .connectionLost else none) := by
  simp [monitor_check, h]

/-- Witness for the amended Claim C8 at a concrete dead status. -/
theorem C8_dead_listener_restart_amended_witness :
    (monitor_check true ⟨false, 0, 0⟩).removed = true ∧
    (monitor_check true ⟨false, 0, 0⟩).restartCall = true ∧
    (monitor_check true ⟨false, 0, 0⟩).alert = some .connectionLost :=
  have h := C8_dead_listener_restart_amended true ⟨false, 0, 0⟩ rfl
  ⟨h.1, h.2.1, h.2.2⟩

/-- Claim C9: with the endpoint unreachable on every attempt,
`write_opcua_value` performs exactly 3 dials with 2 fixed inter-attempt
delays, returns the "Cannot connect" error dictionary (no exception
escapes), leaves every node value unchanged, and no connection handle
remains afterwards. -/
theorem C9_write_unreachable (getNodeFails : String → Bool)
    (nodes : String → Int) (node_id : String) (value : Int) :
    (write_opcua_value (fun _ => false) getNodeFails nodes node_id
        value).result = .error .cannotConnect ∧
    (write_opcua_value (fun _ => false) getNodeFails nodes node_id
        value).dials = 3 ∧
    (write_opcua_value (fun _ => false) getNodeFails nodes node_id
        value).sleeps = 2 ∧
    (write_opcua_value (fun _ => false) getNodeFails nodes node_id
        value).nodes = nodes ∧
    (write_opcua_value (fun _ => false) getNodeFails nodes node_id
        value).clientAfter = false :=
  ⟨rfl, rfl, rfl, rfl, rfl⟩

/-- Claim C10: for every reader and tag list the scan result satisfies
`processed + |unknown_tags| = |tags|` and `processed = |items|`, and
`unknown_tags` is exactly the list of unmatched input tags in input
order. -/
theorem C10_scan_result_partition
    (lookup : String → Option Product) (reader_id : String)
    (rfid_tags : List String) (db0 : List RFIDTracking) (accept : Bool) :
    (process_rfid_scan lookup reader_id rfid_tags db0 accept).1.processed +
        (process_rfid_scan lookup reader_id rfid_tags db0
          accept).1.unknown_tags.length = rfid_tags.length ∧
    (process_rfid_scan lookup reader_id rfid_tags db0 accept).1.processed =
      (process_rfid_scan lookup reader_id rfid_tags db0
        accept).1.items.length ∧
    (process_rfid_scan lookup reader_id rfid_tags db0 accept).1.unknown_tags =
      rfid_tags.filter fun t => (lookup t).isNone := by
  refine ⟨?_, ?_, ?_⟩
  · simpa [process_rfid_scan, scanLoop_eq] using
      itemsOf_length_add_unknownOf_length lookup rfid_tags
  · simp [process_rfid_scan, scanLoop_eq]
  · simpa [process_rfid_scan, scanLoop_eq] using
      unknownOf_eq_filter lookup rfid_tags

end WMS
